import Mathlib

/-!
Shallow embedding of the transcript-scraping script `src/transcript.py`
(repository: Academic-Text-Reading-and-note-taking-assistant).

The script's only non-trivial logic is `get_transcript` (lines 74-129), an
ordered fallback chain over the upstream YouTube transcript API, and the
per-video report loop in `main` (lines 158-182).  The upstream API is
external, so a video is modelled together with an oracle describing what
each upstream call would do for it:

  * `list_transcripts(video_id)` either raises (`listErr`) or yields a
    listing with an optional manually created English track (`manualEn`),
    an optional auto-generated English track (`generatedEn`), and the
    ordered list of all available tracks (`available`, the order of
    `list(transcript_list)`).
  * `transcript.fetch()` either raises (`fetchErr`) or returns the track's
    segments; only each segment's `text` field is used by the script, so a
    segment is modelled as its text.
  * `transcript.translate('en')` either raises (`translateErr`) or yields
    a translated track whose `fetch()` either raises
    (`translatedFetchErr`) or returns `translated`.

Modelling note: the script also contains an `except AttributeError` branch
(lines 100-118) for old versions of the library that lack
`list_transcripts`.  The model covers the current-library path: exceptions
raised by the transcript API calls are transcript-retrieval errors, not
`AttributeError`, so they are caught by the bare `except:` clauses or by
the outermost `except Exception` (lines 127-129), never by the
version-detection branch.
-/

/-- One transcript track as seen through the upstream API oracle.
`segments` is what `fetch()` would return (each entry's `text`);
`fetchErr` says `fetch()` raises instead.  The `translate*` fields are
exercised only for tracks reached through the `available` listing (line
95): `translateErr` says `translate('en')` raises; otherwise the
translated track's `fetch()` raises iff `translatedFetchErr`, else it
returns `translated`. -/
structure Transcript where
  segments : List String
  fetchErr : Bool
  translateErr : Bool
  translated : List String
  translatedFetchErr : Bool
deriving Repr, DecidableEq

/-- The result of a successful `list_transcripts(video_id)` call (line 80):
lookup of the manually created English track, of the auto-generated
English track, and the ordered listing `list(transcript_list)` (line 93). -/
structure TranscriptListing where
  manualEn : Option Transcript
  generatedEn : Option Transcript
  available : List Transcript
deriving Repr, DecidableEq

/-- A video together with the upstream oracle for it.  `listErr` says
`list_transcripts(video_id)` itself raises (line 80). -/
structure Video where
  id : String
  title : String
  listErr : Bool
  tracks : TranscriptListing
deriving Repr, DecidableEq

/-- The joiner `' '.join([entry['text'] for entry in transcript_data])` of
line 122. -/
def joinSegments (transcript_data : List String) : String :=
  String.intercalate " " transcript_data

/-- Lines 120-125: `if transcript_data:` is Python list truthiness, i.e.
nonemptiness; an empty segment list yields `None`, otherwise the joined
text. -/
def combineText : List String → Option String
  | [] => none
  | s :: rest => some (joinSegments (s :: rest))

/-- Strategy 1, lines 83-85: `find_manually_created_transcript(['en'])`
raises when there is no manual English track, then `fetch()` may raise;
`.error ()` models an exception (caught by the `except:` on line 86). -/
def tryManual (tl : TranscriptListing) : Except Unit (List String) :=
  match tl.manualEn with
  | none => .error ()
  | some t => match t.fetchErr with
    | true => .error ()
    | false => .ok t.segments

/-- Strategy 2, lines 88-90: `find_generated_transcript(['en'])` raises
when there is no auto-generated English track, then `fetch()` may raise;
`.error ()` models an exception (caught by the `except:` on line 91). -/
def tryGenerated (tl : TranscriptListing) : Except Unit (List String) :=
  match tl.generatedEn with
  | none => .error ()
  | some t => match t.fetchErr with
    | true => .error ()
    | false => .ok t.segments

/-- Strategy 3, lines 92-98: if `list(transcript_list)` is empty, `return
None` (line 98, modelled `.ok none`); otherwise only the first track is
used: `available_transcripts[0].translate('en')` then `fetch()`, whose
exceptions are not caught locally (`.error ()` propagates to the outer
handler). -/
def tryTranslateFallback (tl : TranscriptListing) : Except Unit (Option (List String)) :=
  match tl.available with
  | [] => .ok none
  | t :: _ => match t.translateErr with
    | true => .error ()
    | false => match t.translatedFetchErr with
      | true => .error ()
      | false => .ok (some t.translated)

/-- Lines 78-125 of `get_transcript`, without the outermost
`except Exception` handler: the body inside the outer `try`.  `.error ()`
is an exception escaping this body (from `list_transcripts` or from the
translate-fallback step). -/
def get_transcript_inner (v : Video) : Except Unit (Option String) :=
  match v.listErr with
  | true => .error ()
  | false =>
    match tryManual v.tracks with
    | .ok transcript_data => .ok (combineText transcript_data)
    | .error _ =>
      match tryGenerated v.tracks with
      | .ok transcript_data => .ok (combineText transcript_data)
      | .error _ =>
        match tryTranslateFallback v.tracks with
        | .error _ => .error ()
        | .ok none => .ok none
        | .ok (some transcript_data) => .ok (combineText transcript_data)

/-- Function `get_transcript` (lines 74-129): the body wrapped in the outermost
`try ... except Exception: return None` (lines 76, 127-129).  `none` is
the script's uniform failure signal `None`. -/
def get_transcript (v : Video) : Option String :=
  match get_transcript_inner v with
  | .ok r => r
  | .error _ => none

/-- The three retrieval strategies of the fallback chain. -/
inductive Strategy where
  | manual
  | generated
  | translateFallback
deriving Repr, DecidableEq

/-- Which strategies `get_transcript` attempts, in order, following the
control flow of lines 78-98: strategy 1 runs whenever `list_transcripts`
succeeded; strategy 2 runs iff strategy 1 raised; strategy 3 runs iff
strategy 2 raised. -/
def attempted (v : Video) : List Strategy :=
  match v.listErr with
  | true => []
  | false =>
    match tryManual v.tracks with
    | .ok _ => [.manual]
    | .error _ =>
      match tryGenerated v.tracks with
      | .ok _ => [.manual, .generated]
      | .error _ => [.manual, .generated, .translateFallback]

/-- Strategy 1 raises: no manual English track, or its `fetch()` raises. -/
def manualStepFails (tl : TranscriptListing) : Bool :=
  match tl.manualEn with
  | none => true
  | some t => t.fetchErr

/-- Strategy 2 raises: no auto-generated English track, or its `fetch()`
raises. -/
def generatedStepFails (tl : TranscriptListing) : Bool :=
  match tl.generatedEn with
  | none => true
  | some t => t.fetchErr

/-- Strategy 3 raises an exception (rather than returning): the listing is
nonempty and translating or fetching its first track raises. -/
def translateStepRaises (tl : TranscriptListing) : Bool :=
  match tl.available with
  | [] => false
  | t :: _ => t.translateErr || t.translatedFetchErr

/-! The report written by `main` (lines 154-182).

`main` writes a header, then one record per video, in input order, and
counts successes and failures.  The channel/video enumeration is external
input, so `main`'s loop is modelled as a function of the ordered list of
videos (each with its oracle).  File writes are modelled by accumulating
the written string. -/

/-- Constant `CHANNEL_NAME` (line 9). -/
def CHANNEL_NAME : String := "3Blue1Brown"

/-- The separator `"-" * 30` (lines 169, 176). -/
def dashLine : String := String.mk (List.replicate 30 (Char.ofNat 45))

/-- The delimiter `"=" * 50` (lines 156, 171). -/
def equalsLine : String := String.mk (List.replicate 50 (Char.ofNat 61))

/-- The video's canonical URL `https://youtube.com/watch?v={video_id}`
(lines 168, 175). -/
def videoURL (v : Video) : String :=
  "https://youtube.com/watch?v=" ++ v.id

/-- The header written before the loop (lines 155-156). -/
def reportHeader : String :=
  "Transcripts from " ++ CHANNEL_NAME ++ "\n" ++ equalsLine ++ "\n\n"

/-- The writes of the success branch (lines 167-171). -/
def successRecord (v : Video) (transcript : String) : String :=
  "VIDEO: " ++ v.title ++ "\n"
    ++ "URL: " ++ videoURL v ++ "\n"
    ++ dashLine ++ "\n"
    ++ transcript
    ++ "\n\n" ++ equalsLine ++ "\n\n"

/-- The writes of the failure branch (lines 174-176). -/
def failureRecord (v : Video) : String :=
  "FAILED TO GET TRANSCRIPT: " ++ v.title ++ "\n"
    ++ "URL: " ++ videoURL v ++ "\n"
    ++ dashLine ++ "\n\n"

/-- Python truthiness of `transcript` at line 166: `None` and the empty
string are both falsy. -/
def transcriptTruthy : Option String → Bool
  | none => false
  | some s => !(s == "")

/-- What one loop iteration (lines 161-177) writes for video `v`. -/
def videoRecord (v : Video) : String :=
  match get_transcript v with
  | none => failureRecord v
  | some transcript =>
    match transcript == "" with
    | true => failureRecord v
    | false => successRecord v transcript

/-- One iteration of the loop over `(written so far, successful, failed)`
(lines 161-177): fetch the transcript, write the success or failure
record, bump the matching counter. -/
def mainStep (acc : String × Nat × Nat) (v : Video) : String × Nat × Nat :=
  match get_transcript v with
  | none => (acc.1 ++ failureRecord v, acc.2.1, acc.2.2 + 1)
  | some transcript =>
    match transcript == "" with
    | true => (acc.1 ++ failureRecord v, acc.2.1, acc.2.2 + 1)
    | false => (acc.1 ++ successRecord v transcript, acc.2.1 + 1, acc.2.2)

/-- The whole per-video loop (lines 158-177), starting from the empty
written text and zeroed counters: returns the text written by the loop and
the final `(successful, failed)` counters. -/
def mainLoop (videos : List Video) : String × Nat × Nat :=
  videos.foldl mainStep ("", 0, 0)

/-- The full report file contents: header followed by the loop's writes
(lines 154-177). -/
def mainOutput (videos : List Video) : String :=
  reportHeader ++ (mainLoop videos).1

/-! Helper lemmas. -/

/-- Lines 120-123 on a nonempty segment list: the joined text. -/
theorem combineText_of_ne_nil (segs : List String) (h : segs ≠ []) :
    combineText segs = some (joinSegments segs) := by
  cases segs with
  | nil => exact absurd rfl h
  | cons a l => rfl

/-- Inversion for a successful strategy 1: there is a manual English track
whose fetch succeeds, and the data is its segments. -/
theorem tryManual_ok (tl : TranscriptListing) (data : List String)
    (h : tryManual tl = .ok data) :
    ∃ t, tl.manualEn = some t ∧ t.fetchErr = false ∧ data = t.segments := by
  unfold tryManual at h
  cases hm : tl.manualEn with
  | none => rw [hm] at h; exact absurd h (by simp)
  | some t =>
    rw [hm] at h
    cases hf : t.fetchErr with
    | true => simp [hf] at h
    | false => simp [hf] at h; exact ⟨t, rfl, hf, h.symm⟩

/-- Inversion for a successful strategy 2. -/
theorem tryGenerated_ok (tl : TranscriptListing) (data : List String)
    (h : tryGenerated tl = .ok data) :
    ∃ t, tl.generatedEn = some t ∧ t.fetchErr = false ∧ data = t.segments := by
  unfold tryGenerated at h
  cases hm : tl.generatedEn with
  | none => rw [hm] at h; exact absurd h (by simp)
  | some t =>
    rw [hm] at h
    cases hf : t.fetchErr with
    | true => simp [hf] at h
    | false => simp [hf] at h; exact ⟨t, rfl, hf, h.symm⟩

/-- Inversion for a strategy 3 that returned segments: they are the
translation of the first available track. -/
theorem tryTranslateFallback_ok_some (tl : TranscriptListing) (data : List String)
    (h : tryTranslateFallback tl = .ok (some data)) :
    ∃ t rest, tl.available = t :: rest ∧ t.translateErr = false
      ∧ t.translatedFetchErr = false ∧ data = t.translated := by
  unfold tryTranslateFallback at h
  cases ha : tl.available with
  | nil => rw [ha] at h; exact absurd h (by simp)
  | cons t rest =>
    rw [ha] at h
    cases he : t.translateErr with
    | true => simp [he] at h
    | false =>
      cases hf : t.translatedFetchErr with
      | true => simp [he, hf] at h
      | false => simp [he, hf] at h; exact ⟨t, rest, rfl, he, hf, h.symm⟩

/-! Sample inputs used by the witnesses. -/

/-- A track with three segments and no upstream errors. -/
def abcTrack : Transcript := ⟨["a", "b", "c"], false, false, [], false⟩

/-- A non-English track that translates cleanly to two segments. -/
def frTrack : Transcript := ⟨["bonjour", "monde"], false, false, ["hello", "world"], false⟩

/-- A track whose `translate('en')` call raises. -/
def badTranslateTrack : Transcript := ⟨["x"], false, true, [], false⟩

/-- A track with zero segments whose fetch succeeds. -/
def emptyTrack : Transcript := ⟨[], false, false, [], false⟩

/-- A video with a manual English track (`abcTrack`) and nothing else. -/
def manualVideo : Video := ⟨"vid1", "Manual", false, ⟨some abcTrack, none, [abcTrack]⟩⟩

/-- A video whose only English track is auto-generated. -/
def generatedVideo : Video := ⟨"vid2", "Generated", false, ⟨none, some abcTrack, [abcTrack]⟩⟩

/-- A video with no English track but a translatable French track. -/
def translateVideo : Video := ⟨"vid3", "Translate", false, ⟨none, none, [frTrack]⟩⟩

/-- A video with zero available transcripts. -/
def noTranscriptVideo : Video := ⟨"vid4", "Nothing", false, ⟨none, none, []⟩⟩

/-- A video whose only track fails to translate, while a perfectly good
second track sits unused behind it in the listing. -/
def badFirstVideo : Video := ⟨"vid5", "BadFirst", false, ⟨none, none, [badTranslateTrack, frTrack]⟩⟩

/-- A video for which `list_transcripts` itself raises. -/
def listErrVideo : Video := ⟨"vid6", "ListErr", true, ⟨some abcTrack, none, [abcTrack]⟩⟩

/-- A video whose manual English track fetches zero segments. -/
def emptyManualVideo : Video := ⟨"vid7", "Empty", false, ⟨some emptyTrack, some abcTrack, [abcTrack]⟩⟩

/-! Claim theorems. -/

/-- Claim C1.  For every video for which a manually authored English transcript
exists (a manual English track is listed, its fetch succeeds, and it has
at least one segment), `get_transcript` returns exactly that transcript's
text — its segments joined in order — and attempts neither the
auto-generated nor the translate-fallback strategy. -/
theorem fetch_manual_first (v : Video) (t : Transcript)
    (hlist : v.listErr = false)
    (hman : v.tracks.manualEn = some t)
    (hfetch : t.fetchErr = false)
    (hne : t.segments ≠ []) :
    get_transcript v = some (joinSegments t.segments)
      ∧ attempted v = [Strategy.manual] := by
  have hok : tryManual v.tracks = .ok t.segments := by
    simp [tryManual, hman, hfetch]
  constructor
  · simp [get_transcript, get_transcript_inner, hlist, hok,
      combineText_of_ne_nil t.segments hne]
  · simp [attempted, hlist, hok]

/-- Witness for C1: on `manualVideo` the manual transcript "a b c" is
returned and only the manual strategy is attempted. -/
theorem fetch_manual_first_witness :
    get_transcript manualVideo = some "a b c"
      ∧ attempted manualVideo = [Strategy.manual] :=
  fetch_manual_first manualVideo abcTrack rfl rfl rfl (by decide)

/-- Claim C2.  For every video whose only English transcript is auto-generated
(no manual English track; the generated track's fetch succeeds with at
least one segment), `get_transcript` returns the auto-generated
transcript's text and never invokes the translate-fallback strategy. -/
theorem fetch_generated_fallback (v : Video) (t : Transcript)
    (hlist : v.listErr = false)
    (hman : v.tracks.manualEn = none)
    (hgen : v.tracks.generatedEn = some t)
    (hfetch : t.fetchErr = false)
    (hne : t.segments ≠ []) :
    get_transcript v = some (joinSegments t.segments)
      ∧ Strategy.translateFallback ∉ attempted v := by
  have hmanFail : tryManual v.tracks = .error () := by
    simp [tryManual, hman]
  have hok : tryGenerated v.tracks = .ok t.segments := by
    simp [tryGenerated, hgen, hfetch]
  constructor
  · simp [get_transcript, get_transcript_inner, hlist, hmanFail, hok,
      combineText_of_ne_nil t.segments hne]
  · simp [attempted, hlist, hmanFail, hok]

/-- Witness for C2: on `generatedVideo` the auto-generated transcript
"a b c" is returned and the translate fallback is never attempted. -/
theorem fetch_generated_fallback_witness :
    get_transcript generatedVideo = some "a b c"
      ∧ Strategy.translateFallback ∉ attempted generatedVideo :=
  fetch_generated_fallback generatedVideo abcTrack rfl rfl rfl rfl (by decide)

/-- Claim C3.  For every video with no English transcript (no manual and no
auto-generated English track) but at least one available transcript whose
translation to English succeeds with at least one segment,
`get_transcript` returns that transcript translated to English. -/
theorem fetch_translate_fallback (v : Video) (t : Transcript) (rest : List Transcript)
    (hlist : v.listErr = false)
    (hman : v.tracks.manualEn = none)
    (hgen : v.tracks.generatedEn = none)
    (havail : v.tracks.available = t :: rest)
    (htr : t.translateErr = false)
    (htf : t.translatedFetchErr = false)
    (hne : t.translated ≠ []) :
    get_transcript v = some (joinSegments t.translated) := by
  have hmanFail : tryManual v.tracks = .error () := by
    simp [tryManual, hman]
  have hgenFail : tryGenerated v.tracks = .error () := by
    simp [tryGenerated, hgen]
  have hok : tryTranslateFallback v.tracks = .ok (some t.translated) := by
    simp [tryTranslateFallback, havail, htr, htf]
  simp [get_transcript, get_transcript_inner, hlist, hmanFail, hgenFail, hok,
    combineText_of_ne_nil t.translated hne]

/-- Witness for C3: on `translateVideo` the French track is translated and
"hello world" is returned. -/
theorem fetch_translate_fallback_witness :
    get_transcript translateVideo = some "hello world" :=
  fetch_translate_fallback translateVideo frTrack [] rfl rfl rfl rfl rfl rfl (by decide)

/-- Claim C4.  For every video with zero available transcripts (no manual
English track, no generated English track, empty listing),
`get_transcript` reaches the explicit `return None` of line 98: no
exception escapes the body (`get_transcript_inner` is `ok`), and the
result is the uniform failure signal `none`, not a success value. -/
theorem fetch_no_transcripts_failure (v : Video)
    (hlist : v.listErr = false)
    (hman : v.tracks.manualEn = none)
    (hgen : v.tracks.generatedEn = none)
    (havail : v.tracks.available = []) :
    get_transcript_inner v = Except.ok none ∧ get_transcript v = none := by
  have hmanFail : tryManual v.tracks = .error () := by
    simp [tryManual, hman]
  have hgenFail : tryGenerated v.tracks = .error () := by
    simp [tryGenerated, hgen]
  have hnone : tryTranslateFallback v.tracks = .ok none := by
    simp [tryTranslateFallback, havail]
  have hinner : get_transcript_inner v = Except.ok none := by
    simp [get_transcript_inner, hlist, hmanFail, hgenFail, hnone]
  exact ⟨hinner, by simp [get_transcript, hinner]⟩

/-- Witness for C4: on `noTranscriptVideo` the fetch fails uniformly. -/
theorem fetch_no_transcripts_failure_witness :
    get_transcript_inner noTranscriptVideo = Except.ok none
      ∧ get_transcript noTranscriptVideo = none :=
  fetch_no_transcripts_failure noTranscriptVideo rfl rfl rfl rfl

/-- Inversion for lines 120-125 returning text: the segment list was
nonempty and the text is its space-join. -/
theorem combineText_eq_some (data : List String) (s : String)
    (h : combineText data = some s) : data ≠ [] ∧ s = joinSegments data := by
  cases data with
  | nil => simp [combineText] at h
  | cons a l =>
    simp [combineText] at h
    exact ⟨by simp, h.symm⟩

/-- If strategy 1 fails per `manualStepFails`, `tryManual` raises. -/
theorem tryManual_error_of_fails (tl : TranscriptListing)
    (h : manualStepFails tl = true) : tryManual tl = .error () := by
  cases hm : tl.manualEn with
  | none => simp [tryManual, hm]
  | some t =>
    unfold manualStepFails at h
    rw [hm] at h
    simp at h
    simp [tryManual, hm, h]

/-- If strategy 2 fails per `generatedStepFails`, `tryGenerated` raises. -/
theorem tryGenerated_error_of_fails (tl : TranscriptListing)
    (h : generatedStepFails tl = true) : tryGenerated tl = .error () := by
  cases hm : tl.generatedEn with
  | none => simp [tryGenerated, hm]
  | some t =>
    unfold generatedStepFails at h
    rw [hm] at h
    simp at h
    simp [tryGenerated, hm, h]

/-- If strategy 3 raises per `translateStepRaises`, `tryTranslateFallback`
raises. -/
theorem tryTranslateFallback_error_of_raises (tl : TranscriptListing)
    (h : translateStepRaises tl = true) : tryTranslateFallback tl = .error () := by
  cases ha : tl.available with
  | nil =>
    unfold translateStepRaises at h
    rw [ha] at h
    simp at h
  | cons t rest =>
    unfold translateStepRaises at h
    rw [ha] at h
    simp at h
    cases he : t.translateErr with
    | true => simp [tryTranslateFallback, ha, he]
    | false =>
      rcases h with h | h
      · rw [he] at h; simp at h
      · simp [tryTranslateFallback, ha, he, h]

/-- Every success of `get_transcript` comes from the combination (lines
120-125) of the data produced by one of the three strategies. -/
theorem get_transcript_some_combineText (v : Video) (s : String)
    (h : get_transcript v = some s) :
    ∃ data, combineText data = some s
      ∧ (tryManual v.tracks = .ok data
        ∨ tryGenerated v.tracks = .ok data
        ∨ tryTranslateFallback v.tracks = .ok (some data)) := by
  cases hl : v.listErr with
  | true => simp [get_transcript, get_transcript_inner, hl] at h
  | false =>
    cases hm : tryManual v.tracks with
    | ok data =>
      simp [get_transcript, get_transcript_inner, hl, hm] at h
      exact ⟨data, h, Or.inl rfl⟩
    | error e =>
      cases hg : tryGenerated v.tracks with
      | ok data =>
        simp [get_transcript, get_transcript_inner, hl, hm, hg] at h
        exact ⟨data, h, Or.inr (Or.inl rfl)⟩
      | error e2 =>
        cases ht : tryTranslateFallback v.tracks with
        | error e3 =>
          simp [get_transcript, get_transcript_inner, hl, hm, hg, ht] at h
        | ok od =>
          cases od with
          | none =>
            simp [get_transcript, get_transcript_inner, hl, hm, hg, ht] at h
          | some data =>
            simp [get_transcript, get_transcript_inner, hl, hm, hg, ht] at h
            exact ⟨data, h, Or.inr (Or.inr rfl)⟩

/-- Claim C5.  Every successful fetch returns the segment texts of the track it
retrieved — the manual English track, the generated English track, or the
translation of the first available track — joined in upstream order with
a single space (`joinSegments` is `' '.join`).  The witness instantiates
the `["a","b","c"]` example yielding `"a b c"`. -/
theorem fetch_success_joins_segments (v : Video) (s : String)
    (h : get_transcript v = some s) :
    (∃ t, v.tracks.manualEn = some t ∧ t.fetchErr = false
      ∧ s = joinSegments t.segments)
    ∨ (∃ t, v.tracks.generatedEn = some t ∧ t.fetchErr = false
      ∧ s = joinSegments t.segments)
    ∨ (∃ t rest, v.tracks.available = t :: rest ∧ s = joinSegments t.translated) := by
  obtain ⟨data, hc, hcase⟩ := get_transcript_some_combineText v s h
  have hjoin := (combineText_eq_some data s hc).2
  rcases hcase with hm | hg | ht
  · obtain ⟨t, htt, hf, hd⟩ := tryManual_ok _ _ hm
    exact Or.inl ⟨t, htt, hf, by rw [hjoin, hd]⟩
  · obtain ⟨t, htt, hf, hd⟩ := tryGenerated_ok _ _ hg
    exact Or.inr (Or.inl ⟨t, htt, hf, by rw [hjoin, hd]⟩)
  · obtain ⟨t, rest, ha, he, hf, hd⟩ := tryTranslateFallback_ok_some _ _ ht
    exact Or.inr (Or.inr ⟨t, rest, ha, by rw [hjoin, hd]⟩)

/-- Witness for C5: on `manualVideo` (segments `["a","b","c"]`) the result
is `"a b c"`, and it is the space-join of the manual track's segments. -/
theorem fetch_success_joins_segments_witness :
    (∃ t, manualVideo.tracks.manualEn = some t ∧ t.fetchErr = false
      ∧ "a b c" = joinSegments t.segments)
    ∨ (∃ t, manualVideo.tracks.generatedEn = some t ∧ t.fetchErr = false
      ∧ "a b c" = joinSegments t.segments)
    ∨ (∃ t rest, manualVideo.tracks.available = t :: rest
      ∧ "a b c" = joinSegments t.translated) :=
  fetch_success_joins_segments manualVideo "a b c" (by rfl)

/-- Claim C6.  No combination of upstream failures makes `get_transcript` raise:
an exception escaping the body is converted to `none` by the outermost
handler (lines 127-129); a failing strategy 1 triggers strategy 2, a
failing strategy 2 triggers strategy 3, and a raising strategy 3 — like a
raising `list_transcripts` — still yields the terminal `none`. -/
theorem fetch_failures_nonfatal (v : Video) :
    (get_transcript_inner v = Except.error () → get_transcript v = none)
    ∧ (v.listErr = true → get_transcript v = none)
    ∧ (v.listErr = false → manualStepFails v.tracks = true →
        Strategy.generated ∈ attempted v)
    ∧ (v.listErr = false → manualStepFails v.tracks = true →
        generatedStepFails v.tracks = true →
        Strategy.translateFallback ∈ attempted v)
    ∧ (v.listErr = false → manualStepFails v.tracks = true →
        generatedStepFails v.tracks = true →
        translateStepRaises v.tracks = true →
        get_transcript v = none) := by
  refine ⟨?_, ?_, ?_, ?_, ?_⟩
  · intro h
    simp [get_transcript, h]
  · intro h
    simp [get_transcript, get_transcript_inner, h]
  · intro hl hm
    cases hg : tryGenerated v.tracks with
    | ok d => simp [attempted, hl, tryManual_error_of_fails _ hm, hg]
    | error e => simp [attempted, hl, tryManual_error_of_fails _ hm, hg]
  · intro hl hm hg
    simp [attempted, hl, tryManual_error_of_fails _ hm,
      tryGenerated_error_of_fails _ hg]
  · intro hl hm hg ht
    simp [get_transcript, get_transcript_inner, hl,
      tryManual_error_of_fails _ hm, tryGenerated_error_of_fails _ hg,
      tryTranslateFallback_error_of_raises _ ht]

/-- Witness for C6: on `badFirstVideo` all three strategies fail (the last
by an uncaught translate exception) yet the result is `none`, and on
`listErrVideo` a raising `list_transcripts` also yields `none`. -/
theorem fetch_failures_nonfatal_witness :
    get_transcript badFirstVideo = none
      ∧ Strategy.generated ∈ attempted badFirstVideo
      ∧ Strategy.translateFallback ∈ attempted badFirstVideo
      ∧ get_transcript listErrVideo = none :=
  ⟨(fetch_failures_nonfatal badFirstVideo).1 rfl,
   (fetch_failures_nonfatal badFirstVideo).2.2.1 rfl rfl,
   (fetch_failures_nonfatal badFirstVideo).2.2.2.1 rfl rfl rfl,
   (fetch_failures_nonfatal listErrVideo).2.1 rfl⟩

/-- Claim C9.  The translate-fallback step only ever uses the first transcript
of the upstream listing: whenever the first two strategies have failed and
translating or fetching the first available track raises, the video's
result is the failure signal `none`, for every tail `rest` of other
available transcripts — none of them is tried. -/
theorem translate_fallback_first_only (v : Video) (t : Transcript)
    (rest : List Transcript)
    (hlist : v.listErr = false)
    (hman : manualStepFails v.tracks = true)
    (hgen : generatedStepFails v.tracks = true)
    (havail : v.tracks.available = t :: rest)
    (hfail : t.translateErr = true ∨ t.translatedFetchErr = true) :
    get_transcript v = none := by
  have hraise : tryTranslateFallback v.tracks = .error () := by
    rcases hfail with h | h
    · simp [tryTranslateFallback, havail, h]
    · cases he : t.translateErr with
      | true => simp [tryTranslateFallback, havail, he]
      | false => simp [tryTranslateFallback, havail, he, h]
  simp [get_transcript, get_transcript_inner, hlist,
    tryManual_error_of_fails _ hman, tryGenerated_error_of_fails _ hgen, hraise]

/-- Witness for C9: on `badFirstVideo` the first track fails to translate
and the perfectly translatable `frTrack` behind it is never used: the
whole fetch fails. -/
theorem translate_fallback_first_only_witness :
    get_transcript badFirstVideo = none :=
  translate_fallback_first_only badFirstVideo badTranslateTrack [frTrack]
    rfl rfl rfl rfl (Or.inl rfl)

/-- Claim C10.  A retrieval step that succeeds with zero segments yields the
failure signal `none` (lines 120-125), never an empty-string success built
from no segments — this holds for each of the three strategies — and
conversely every success is the join of at least one segment. -/
theorem success_requires_segments (v : Video) :
    (∀ s, get_transcript v = some s →
      ∃ segs, segs ≠ [] ∧ s = joinSegments segs)
    ∧ (∀ t, v.listErr = false → v.tracks.manualEn = some t →
        t.fetchErr = false → t.segments = [] → get_transcript v = none)
    ∧ (∀ t, v.listErr = false → manualStepFails v.tracks = true →
        v.tracks.generatedEn = some t → t.fetchErr = false →
        t.segments = [] → get_transcript v = none)
    ∧ (∀ t rest, v.listErr = false → manualStepFails v.tracks = true →
        generatedStepFails v.tracks = true →
        v.tracks.available = t :: rest → t.translateErr = false →
        t.translatedFetchErr = false → t.translated = [] →
        get_transcript v = none) := by
  refine ⟨?_, ?_, ?_, ?_⟩
  · intro s h
    obtain ⟨data, hc, _⟩ := get_transcript_some_combineText v s h
    obtain ⟨hne, hj⟩ := combineText_eq_some data s hc
    exact ⟨data, hne, hj⟩
  · intro t hl hm hf hs
    have hok : tryManual v.tracks = .ok [] := by
      simp [tryManual, hm, hf, hs]
    simp [get_transcript, get_transcript_inner, hl, hok, combineText]
  · intro t hl hman hg hf hs
    have hok : tryGenerated v.tracks = .ok [] := by
      simp [tryGenerated, hg, hf, hs]
    simp [get_transcript, get_transcript_inner, hl,
      tryManual_error_of_fails _ hman, hok, combineText]
  · intro t rest hl hman hgen ha he hf hs
    have hok : tryTranslateFallback v.tracks = .ok (some []) := by
      simp [tryTranslateFallback, ha, he, hf, hs]
    simp [get_transcript, get_transcript_inner, hl,
      tryManual_error_of_fails _ hman, tryGenerated_error_of_fails _ hgen,
      hok, combineText]

/-- Witness for C10: on `emptyManualVideo` the manual track fetches zero
segments, and the fetch returns `none` (even though a nonempty generated
track exists: no exception was raised, so no fallback happens). -/
theorem success_requires_segments_witness :
    get_transcript emptyManualVideo = none :=
  (success_requires_segments emptyManualVideo).2.1 emptyTrack rfl rfl rfl rfl

/-- One record per video, in input order. -/
def concatRecords : List Video → String
  | [] => ""
  | v :: rest => videoRecord v ++ concatRecords rest

/-- One loop iteration appends exactly the video's record and bumps
exactly one of the two counters. -/
theorem mainStep_eq (acc : String × Nat × Nat) (v : Video) :
    mainStep acc v
      = (acc.1 ++ videoRecord v,
         acc.2.1 + (if transcriptTruthy (get_transcript v) then 1 else 0),
         acc.2.2 + (if transcriptTruthy (get_transcript v) then 0 else 1)) := by
  unfold mainStep videoRecord transcriptTruthy
  cases h : get_transcript v with
  | none => simp
  | some s =>
    cases hs : s == "" with
    | true => simp [hs]
    | false => simp [hs]

/-- The loop from any accumulator: it appends the records of all videos in
input order and adds the success and failure counts. -/
theorem mainLoop_go (videos : List Video) (out : String) (s f : Nat) :
    videos.foldl mainStep (out, s, f)
      = (out ++ concatRecords videos,
         s + (videos.filter fun v => transcriptTruthy (get_transcript v)).length,
         f + (videos.filter fun v => !transcriptTruthy (get_transcript v)).length) := by
  induction videos generalizing out s f with
  | nil => simp [concatRecords]
  | cons v rest ih =>
    rw [List.foldl_cons, mainStep_eq, ih]
    cases h : transcriptTruthy (get_transcript v) with
    | true =>
      simp [concatRecords, List.filter_cons, h, Prod.ext_iff, String.append_assoc]
      all_goals omega
    | false =>
      simp [concatRecords, List.filter_cons, h, Prod.ext_iff, String.append_assoc]
      all_goals omega

/-- Every video is counted exactly once: successes plus failures exhaust
the input list. -/
theorem filter_truthy_split (videos : List Video) :
    (videos.filter fun v => transcriptTruthy (get_transcript v)).length
      + (videos.filter fun v => !transcriptTruthy (get_transcript v)).length
      = videos.length := by
  induction videos with
  | nil => rfl
  | cons v rest ih =>
    cases h : transcriptTruthy (get_transcript v) with
    | true => simp [List.filter_cons, h]; omega
    | false => simp [List.filter_cons, h]; omega

/-- Claim C7.  The per-video loop processes every input video regardless of the
per-video outcomes: the written report is exactly the concatenation of one
record per input video, in input order, and the success and failure
counters classify every video (they sum to the input length). -/
theorem report_one_record_per_video (videos : List Video) :
    (mainLoop videos).1 = concatRecords videos
    ∧ (mainLoop videos).2.1
        = (videos.filter fun v => transcriptTruthy (get_transcript v)).length
    ∧ (mainLoop videos).2.2
        = (videos.filter fun v => !transcriptTruthy (get_transcript v)).length
    ∧ (mainLoop videos).2.1 + (mainLoop videos).2.2 = videos.length := by
  unfold mainLoop
  rw [mainLoop_go]
  refine ⟨by simp, by simp, by simp, ?_⟩
  simpa using filter_truthy_split videos

set_option maxRecDepth 8000 in
/-- Concrete end-to-end check: three videos of which the second has no
transcript give two success records and one failure record, in input
order, with counters `(successful, failed) = (2, 1)`. -/
theorem three_video_report_example :
    mainLoop [manualVideo, noTranscriptVideo, translateVideo]
      = (successRecord manualVideo "a b c"
          ++ failureRecord noTranscriptVideo
          ++ successRecord translateVideo "hello world",
         2, 1) := by
  decide

/-- Claim C8.  Every record the loop writes contains either the video's
concatenated transcript or the failure marker, contains the fixed
separator line (`"-" * 30`), and its marker line is followed directly by
the video's canonical URL line. -/
theorem record_structure (v : Video) :
    ∃ marker tail,
      videoRecord v
        = marker ++ ("URL: " ++ videoURL v ++ "\n") ++ (dashLine ++ "\n") ++ tail
      ∧ ((∃ text, get_transcript v = some text ∧ text ≠ ""
            ∧ marker = "VIDEO: " ++ v.title ++ "\n"
            ∧ tail = text ++ "\n\n" ++ equalsLine ++ "\n\n")
        ∨ (transcriptTruthy (get_transcript v) = false
            ∧ marker = "FAILED TO GET TRANSCRIPT: " ++ v.title ++ "\n"
            ∧ tail = "\n")) := by
  cases h : get_transcript v with
  | none =>
    have hrec : videoRecord v = failureRecord v := by simp [videoRecord, h]
    refine ⟨"FAILED TO GET TRANSCRIPT: " ++ v.title ++ "\n", "\n", ?_,
      Or.inr ⟨by simp [transcriptTruthy], rfl, rfl⟩⟩
    rw [hrec]
    unfold failureRecord
    apply String.ext
    simp [String.data_append]
  | some text =>
    cases ht : text == "" with
    | true =>
      have hrec : videoRecord v = failureRecord v := by simp [videoRecord, h, ht]
      refine ⟨"FAILED TO GET TRANSCRIPT: " ++ v.title ++ "\n", "\n", ?_,
        Or.inr ⟨by simp [transcriptTruthy, ht], rfl, rfl⟩⟩
      rw [hrec]
      unfold failureRecord
      apply String.ext
      simp [String.data_append]
    | false =>
      have hne : text ≠ "" := by simpa using ht
      have hrec : videoRecord v = successRecord v text := by simp [videoRecord, h, ht]
      refine ⟨"VIDEO: " ++ v.title ++ "\n",
        text ++ "\n\n" ++ equalsLine ++ "\n\n", ?_,
        Or.inl ⟨text, rfl, hne, rfl, rfl⟩⟩
      rw [hrec]
      unfold successRecord
      apply String.ext
      simp [String.data_append]
